import Mathlib

/- Shallow embedding of the VoxelRendererSchoolProject sources
   (src/tracer.rs, src/app.rs, src/render.rs, src/main.rs).
   Rust u32 values are modelled as Nat (with an explicit % 2^32 where
   wrap-around matters), f32 scene parameters as ℚ, and fallible
   operations as Except / explicit outcome types. -/

/-- Workgroup size constant of src/tracer.rs (WORKGROUP_SIZE). -/
def WORKGROUP_SIZE : Nat := 16

/-- Value of wgpu COPY_BYTES_PER_ROW_ALIGNMENT, used by Tracer.frame_to_image. -/
def COPY_BYTES_PER_ROW_ALIGNMENT : Nat := 256

/-- Relative path of the compute shader source read by Tracer.new. -/
def shader_path : String := "shaders/voxel.wgsl"

/-- Model of glam::UVec2. -/
abbrev UVec2 := Nat × Nat

/-- Model of glam::IVec3. -/
abbrev IVec3 := Int × Int × Int

/-- Model of glam::Vec3 (f32 components modelled as ℚ). -/
abbrev Vec3 := ℚ × ℚ × ℚ

/-- Model of glam::Vec4 (f32 components modelled as ℚ). -/
abbrev Vec4 := ℚ × ℚ × ℚ × ℚ

/-- Shader uniforms record of src/tracer.rs. -/
structure Uniforms where
  time : ℚ
  frames : Nat
  max_steps : Nat
  voxel_amount : Nat
  resolution : UVec2
  background_color : Vec4
  floor_color : Vec4
  object_color : Vec3
  light_position : Vec3
  sun_intensity : ℚ
  smoothing : ℚ
  ambient_occlusion : Int
  deriving Repr, DecidableEq

/-- Camera record of src/tracer.rs. -/
structure Camera where
  position : Vec3
  look_at : Vec3
  zoom : ℚ
  deriving Repr, DecidableEq

/-- Voxel record of src/tracer.rs: lattice position and color. -/
structure Voxel where
  position : IVec3
  color : Vec3
  deriving Repr, DecidableEq

/-- Voxel constructor (Voxel::new of src/tracer.rs). -/
def Voxel.new (position : IVec3) (color : Vec3) : Voxel :=
  { position := position, color := color }

/-- The voxel grid of src/tracer.rs: an ordered sequence of voxels. -/
abbrev VoxelGrid := List Voxel

/-- Tracer state of src/tracer.rs: the compiled shader source, the output
texture (represented by its dimensions) and the target resolution. -/
structure Tracer where
  compute : String
  texture : UVec2
  resolution : UVec2
  deriving Repr, DecidableEq

/-- Tracer::new of src/tracer.rs: reads shaders/voxel.wgsl through the file
system (modelled as a partial map from paths to contents); a missing file is
an error.  The output texture is created at the requested resolution.  No
validation of the resolution is performed. -/
def Tracer.new (fs : String → Option String) (uniforms : Uniforms) :
    Except Unit Tracer :=
  match fs shader_path with
  | none => Except.error ()
  | some source =>
      Except.ok { compute := source
                  texture := uniforms.resolution
                  resolution := uniforms.resolution }

/-- Workgroup grid issued by Tracer::trace (src/tracer.rs line 257):
dispatch_workgroups(resolution.0 / WORKGROUP_SIZE, resolution.1 / WORKGROUP_SIZE, 1),
with truncating integer division. -/
def Tracer.dispatch_size (t : Tracer) : Nat × Nat :=
  (t.resolution.1 / WORKGROUP_SIZE, t.resolution.2 / WORKGROUP_SIZE)

/-- Padded row stride computed by Tracer::frame_to_image (src/tracer.rs line 276):
(((resolution.0 * 4) + align - 1) / align) * align with integer division. -/
def padded_bytes_per_row (width : Nat) : Nat :=
  ((width * 4) + COPY_BYTES_PER_ROW_ALIGNMENT - 1) / COPY_BYTES_PER_ROW_ALIGNMENT
    * COPY_BYTES_PER_ROW_ALIGNMENT

/-- Image file written by image::save_buffer in Tracer::frame_to_image:
dimensions, pixel format, and the raw bytes handed to the encoder. -/
structure SavedImage where
  width : Nat
  height : Nat
  color_type : String
  data : List Nat
  deriving Repr, DecidableEq

/-- Tracer::frame_to_image success path (src/tracer.rs lines 318-333): the
whole mapped readback range is copied (bytemuck::cast_slice(..).to_vec())
and encoded with width padded_bytes_per_row / 4, height resolution.1, RGBA8.
No row is trimmed to 4 * width bytes. -/
def Tracer.frame_to_image (t : Tracer) (mapped : List Nat) : SavedImage :=
  { width := padded_bytes_per_row t.resolution.1 / 4
    height := t.resolution.2
    color_type := "Rgba8"
    data := mapped }

/-- Surface configuration of src/render.rs (fields untouched by resize are
summarised by the format field). -/
structure SurfaceConfiguration where
  format : Nat
  width : Nat
  height : Nat
  deriving Repr, DecidableEq

/-- Render context state relevant to RenderContext::resize: the surface
configuration plus a counter of surface.configure calls. -/
structure RenderContext where
  surface_config : SurfaceConfiguration
  configure_calls : Nat
  deriving Repr, DecidableEq

/-- RenderContext::resize of src/render.rs lines 115-121: reconfigures the
surface with the new dimensions only when both are positive. -/
def RenderContext.resize (ctx : RenderContext) (width height : Nat) :
    RenderContext :=
  if 0 < width ∧ 0 < height then
    { surface_config :=
        { ctx.surface_config with width := width, height := height }
      configure_calls := ctx.configure_calls + 1 }
  else ctx

/-- Per-tick external stimulus of the application loop: the wall-clock sample
taken at the end of App::execute, the UI interactions of src/app.rs
(draw_ui exposes the Render and Save buttons, the Realtime checkbox, and
drag-value edits of the camera and of the non-structural uniform fields),
window events, and whether the fallible GPU calls of this tick fail. -/
structure Input where
  clock : ℚ
  trace_fails : Bool
  render_fails : Bool
  save_fails : Bool
  render_clicked : Bool
  save_clicked : Bool
  realtime_box : Bool
  close_requested : Bool
  frame_time_meas : ℚ
  delta_meas : ℚ
  camera_edit : Camera
  max_steps_edit : Nat
  smoothing_edit : ℚ
  background_edit : Vec4
  floor_edit : Vec4
  object_edit : Vec3
  sun_edit : ℚ
  ao_edit : Int
  light_edit : Vec3
  deriving Repr, DecidableEq

/-- Application state of src/app.rs (App): the displayed frame handle, timing
info, the voxel grid, the uniforms, the camera, the tracer, and the realtime
and should_run flags. -/
structure AppState where
  frame : Nat
  frame_time : ℚ
  delta_time : ℚ
  grid : VoxelGrid
  uniforms : Uniforms
  camera : Camera
  tracer : Tracer
  realtime : Bool
  should_run : Bool
  deriving Repr, DecidableEq

/-- App::draw_ui of src/app.rs (success path): when realtime is off and the
Render button is clicked a trace is dispatched and the frame handle replaced;
the Realtime checkbox writes the realtime flag; the drag-value widgets write
the camera and the editable uniform fields.  Neither the voxel grid nor
voxel_amount nor resolution nor frames nor time is touched. -/
def App.draw_ui (s : AppState) (i : Input) : AppState :=
  let s1 := if !s.realtime && i.render_clicked then
      { s with frame := s.frame + 1, frame_time := i.frame_time_meas }
    else s
  let s2 := { s1 with realtime := i.realtime_box }
  { s2 with
      camera := i.camera_edit
      uniforms := { s2.uniforms with
        max_steps := i.max_steps_edit
        smoothing := i.smoothing_edit
        background_color := i.background_edit
        floor_color := i.floor_edit
        object_color := i.object_edit
        sun_intensity := i.sun_edit
        ambient_occlusion := i.ao_edit
        light_position := i.light_edit } }

/-- Success path of App::execute of src/app.rs: trace when realtime, draw the
UI, handle window events (should_run := negation of a close request), then
set uniforms.time from the monotonic start instant and increment the u32
frame counter (wrapping at 2^32, Rust release semantics). -/
def App.execute_ok (s : AppState) (i : Input) : AppState :=
  let s1 := if s.realtime then
      { s with frame := s.frame + 1, frame_time := i.frame_time_meas }
    else s
  let s2 := App.draw_ui s1 i
  let s3 := { s2 with should_run := !i.close_requested, delta_time := i.delta_meas }
  { s3 with uniforms := { s3.uniforms with
      time := i.clock
      frames := (s3.uniforms.frames + 1) % 2 ^ 32 } }

/-- Number of trace dispatches issued during one call to App::execute: one
when realtime is on (src/app.rs lines 113-122) plus one when realtime is off
and the Render button is clicked (src/app.rs lines 160-174). -/
def App.dispatches (s : AppState) (i : Input) : Nat :=
  (if s.realtime then 1 else 0) +
    (if !s.realtime && i.render_clicked then 1 else 0)

/-- Fold of App.execute_ok over a sequence of ticks. -/
def App.run_ticks (s : AppState) : List Input → AppState
  | [] => s
  | i :: is => App.run_ticks (App.execute_ok s i) is

/-- Total number of trace dispatches issued over a sequence of ticks. -/
def App.total_dispatches (s : AppState) : List Input → Nat
  | [] => 0
  | i :: is => App.dispatches s i + App.total_dispatches (App.execute_ok s i) is

/-- Outcome of one App::execute call or of App::run: normal completion, an
error returned through the ? operator, or a panic from an unwrap call. -/
inductive TickOutcome where
  | ok (s : AppState)
  | err
  | panicked
  deriving Repr, DecidableEq

/-- App::execute of src/app.rs with its failure paths: a failing realtime
trace propagates through the ? operator; a failing Render-button trace and a
failing save are unwrapped (panic); a failing RenderContext::render call
propagates through the ? operator. -/
def App.execute (s : AppState) (i : Input) : TickOutcome :=
  if s.realtime && i.trace_fails then TickOutcome.err
  else if !s.realtime && i.render_clicked && i.trace_fails then TickOutcome.panicked
  else if i.save_clicked && i.save_fails then TickOutcome.panicked
  else if i.render_fails then TickOutcome.err
  else TickOutcome.ok (App.execute_ok s i)

/-- App::run of src/app.rs lines 277-286: while should_run, execute one frame,
propagating any error of execute through the ? operator (which ends the loop
and the process). -/
def App.run (s : AppState) : List Input → TickOutcome
  | [] => TickOutcome.ok s
  | i :: is =>
    if s.should_run then
      match App.execute s i with
      | TickOutcome.ok s1 => App.run s1 is
      | TickOutcome.err => TickOutcome.err
      | TickOutcome.panicked => TickOutcome.panicked
    else TickOutcome.ok s

/-- Five default voxels created in App::new (src/app.rs lines 49-55). -/
def default_grid : VoxelGrid :=
  [ Voxel.new (0, 0, 0) (1, 1, 1),
    Voxel.new (1, 1, 0) (0, 1, 0),
    Voxel.new (1, 2, 0) (1, 1, 0),
    Voxel.new (-1, 1, 0) (0, 0, 1),
    Voxel.new (0, 1, -1) (1, 0, 0) ]

/-- Default uniforms created in App::new (src/app.rs lines 57-70). -/
def default_uniforms : Uniforms :=
  { time := 0
    frames := 0
    max_steps := 50
    voxel_amount := default_grid.length
    resolution := (1080, 1080)
    background_color := (0, 0, 0, 1)
    floor_color := (1/10, 1/10, 1/10, 1)
    object_color := (1, 1, 1)
    light_position := (0, 1/4, 0)
    sun_intensity := 1
    smoothing := 0
    ambient_occlusion := 20 }

/-- Default camera created in App::new (src/app.rs lines 72-76). -/
def default_camera : Camera :=
  { position := (0, 0, 2), look_at := (0, 0, 0), zoom := 1 }

/-- App state right after a successful App::new: defaults installed, one trace
already dispatched (frame handle 1), realtime off, should_run on. -/
def App.init (source : String) : AppState :=
  { frame := 1
    frame_time := 0
    delta_time := 0
    grid := default_grid
    uniforms := default_uniforms
    camera := default_camera
    tracer := { compute := source, texture := (1080, 1080), resolution := (1080, 1080) }
    realtime := false
    should_run := true }

/-- App::new of src/app.rs: constructs the tracer (reading the shader file);
a tracer construction failure propagates through the ? operator. -/
def App.new (fs : String → Option String) : Except Unit AppState :=
  match Tracer.new fs default_uniforms with
  | Except.error e => Except.error e
  | Except.ok t => Except.ok (App.init t.compute)

/-- Number of trace dispatches issued inside App::new: the single startup
trace happens only after Tracer::new has succeeded (src/app.rs lines 78-83). -/
def App.new_traces (fs : String → Option String) : Nat :=
  match Tracer.new fs default_uniforms with
  | Except.error _ => 0
  | Except.ok _ => 1

/-- Process exit code of main (src/main.rs): 0 on clean shutdown, 1 when
App::new or App::run returns an error (anyhow main), 101 on a Rust panic. -/
def main_exit (fs : String → Option String) (inputs : List Input) : Nat :=
  match App.new fs with
  | Except.error _ => 1
  | Except.ok s =>
    match App.run s inputs with
    | TickOutcome.ok _ => 0
    | TickOutcome.err => 1
    | TickOutcome.panicked => 101

/-- Neutral per-tick input: no button presses, no failures, no close request,
checkbox left off, drag values left at their defaults. -/
def input0 : Input :=
  { clock := 0
    trace_fails := false
    render_fails := false
    save_fails := false
    render_clicked := false
    save_clicked := false
    realtime_box := false
    close_requested := false
    frame_time_meas := 0
    delta_meas := 0
    camera_edit := default_camera
    max_steps_edit := 50
    smoothing_edit := 0
    background_edit := (0, 0, 0, 1)
    floor_edit := (1/10, 1/10, 1/10, 1)
    object_edit := (1, 1, 1)
    sun_edit := 1
    ao_edit := 20
    light_edit := (0, 1/4, 0) }

/-- Tick input that turns the Realtime checkbox on. -/
def input_enable_realtime : Input := { input0 with realtime_box := true }

/-- Tick input whose trace dispatch fails, with the checkbox kept on. -/
def input_trace_fail : Input :=
  { input0 with realtime_box := true, trace_fails := true }

/-- Uniforms requesting a 100 × 100 resolution (scenario S3). -/
def uniforms100 : Uniforms := { default_uniforms with resolution := (100, 100) }

/-- C2: the padded row stride computed by frame_to_image is a multiple of
COPY_BYTES_PER_ROW_ALIGNMENT, is at least 4 * W, and equals
ceil(W * 4 / COPY_ALIGN) * COPY_ALIGN, for every width W ≥ 1. -/
theorem padded_bytes_per_row_spec (W : Nat) (h : 1 ≤ W) :
    padded_bytes_per_row W % COPY_BYTES_PER_ROW_ALIGNMENT = 0 ∧
    4 * W ≤ padded_bytes_per_row W ∧
    (padded_bytes_per_row W : ℤ) =
      ⌈(W * 4 : ℚ) / (COPY_BYTES_PER_ROW_ALIGNMENT : ℚ)⌉
        * COPY_BYTES_PER_ROW_ALIGNMENT := by
  refine ⟨?_, ?_, ?_⟩
  · simp only [padded_bytes_per_row, COPY_BYTES_PER_ROW_ALIGNMENT]
    omega
  · simp only [padded_bytes_per_row, COPY_BYTES_PER_ROW_ALIGNMENT]
    omega
  · simp only [padded_bytes_per_row, COPY_BYTES_PER_ROW_ALIGNMENT, Nat.cast_ofNat]
    have h256 : (0 : ℚ) < (256 : ℚ) := by norm_num
    have h1 : W * 4 ≤ (W * 4 + 256 - 1) / 256 * 256 := by omega
    have h3 : (W * 4 + 256 - 1) / 256 * 256 < W * 4 + 256 := by omega
    generalize hq : (W * 4 + 256 - 1) / 256 = q at h1 h3 ⊢
    have h1q : ((W : ℚ) * 4) ≤ (q : ℚ) * 256 := by exact_mod_cast h1
    have h3q : (q : ℚ) * 256 < ((W : ℚ) * 4) + 256 := by exact_mod_cast h3
    have hceil : ⌈(W * 4 : ℚ) / (256 : ℚ)⌉ = (q : ℤ) := by
      rw [Int.ceil_eq_iff]
      constructor
      · push_cast
        rw [lt_div_iff₀ h256]
        linarith
      · push_cast
        rw [div_le_iff₀ h256]
        linarith
    rw [hceil]
    push_cast
    ring

/-- Witness for padded_bytes_per_row_spec at W = 100. -/
theorem padded_bytes_per_row_spec_witness :
    padded_bytes_per_row 100 % COPY_BYTES_PER_ROW_ALIGNMENT = 0 ∧
    4 * 100 ≤ padded_bytes_per_row 100 ∧
    (padded_bytes_per_row 100 : ℤ) =
      ⌈(100 * 4 : ℚ) / (COPY_BYTES_PER_ROW_ALIGNMENT : ℚ)⌉
        * COPY_BYTES_PER_ROW_ALIGNMENT :=
  padded_bytes_per_row_spec 100 (by decide)

/-- C1: frame_to_image encodes the whole mapped readback range (no trimming
of rows to 4 * W bytes) as an RGBA8 image of width padded_bytes_per_row / 4
and height resolution.1; when 4 * W is not a multiple of the copy alignment
the encoded width strictly exceeds W. -/
theorem frame_to_image_width_no_trim (t : Tracer) (mapped : List Nat) :
    (t.frame_to_image mapped).width = padded_bytes_per_row t.resolution.1 / 4 ∧
    (t.frame_to_image mapped).height = t.resolution.2 ∧
    (t.frame_to_image mapped).color_type = "Rgba8" ∧
    (t.frame_to_image mapped).data = mapped ∧
    (¬ (COPY_BYTES_PER_ROW_ALIGNMENT ∣ 4 * t.resolution.1) →
      t.resolution.1 < (t.frame_to_image mapped).width) := by
  refine ⟨rfl, rfl, rfl, rfl, ?_⟩
  intro hnd
  simp only [Tracer.frame_to_image, padded_bytes_per_row,
    COPY_BYTES_PER_ROW_ALIGNMENT] at hnd ⊢
  omega

/-- Witness for frame_to_image_width_no_trim at resolution 100 × 100. -/
theorem frame_to_image_width_no_trim_witness :
    ¬ (COPY_BYTES_PER_ROW_ALIGNMENT ∣ 4 * 100) ∧
    (100 : Nat) <
      (Tracer.frame_to_image ⟨"", (100, 100), (100, 100)⟩ []).width :=
  ⟨by decide,
    (frame_to_image_width_no_trim ⟨"", (100, 100), (100, 100)⟩ []).2.2.2.2
      (by decide)⟩

/-- C8: resize with a zero dimension leaves the render context unchanged (no
reconfiguration happens); with both dimensions positive the surface is
reconfigured with exactly the new width and height. -/
theorem resize_spec (ctx : RenderContext) (width height : Nat) :
    ((width = 0 ∨ height = 0) → ctx.resize width height = ctx) ∧
    (0 < width → 0 < height →
      (ctx.resize width height).surface_config.width = width ∧
      (ctx.resize width height).surface_config.height = height ∧
      (ctx.resize width height).surface_config.format
        = ctx.surface_config.format ∧
      (ctx.resize width height).configure_calls = ctx.configure_calls + 1) := by
  constructor
  · intro h
    have hcond : ¬ (0 < width ∧ 0 < height) := by omega
    simp [RenderContext.resize, hcond]
  · intro hw hh
    simp [RenderContext.resize, hw, hh]

/-- Witness for resize_spec: a zero-width call is the identity and a 3 × 4
call installs the new dimensions. -/
theorem resize_spec_witness :
    RenderContext.resize ⟨⟨7, 10, 20⟩, 0⟩ 0 5 = ⟨⟨7, 10, 20⟩, 0⟩ ∧
    (RenderContext.resize ⟨⟨7, 10, 20⟩, 0⟩ 3 4).surface_config.width = 3 :=
  ⟨(resize_spec ⟨⟨7, 10, 20⟩, 0⟩ 0 5).1 (Or.inl rfl),
    ((resize_spec ⟨⟨7, 10, 20⟩, 0⟩ 3 4).2 (by decide) (by decide)).1⟩

/-- Helper: one successful tick never touches the voxel grid. -/
theorem execute_ok_grid (s : AppState) (i : Input) :
    (App.execute_ok s i).grid = s.grid := by
  simp only [App.execute_ok, App.draw_ui]
  split_ifs <;> rfl

/-- Helper: one successful tick never touches uniforms.voxel_amount. -/
theorem execute_ok_voxel_amount (s : AppState) (i : Input) :
    (App.execute_ok s i).uniforms.voxel_amount = s.uniforms.voxel_amount := by
  simp only [App.execute_ok, App.draw_ui]
  split_ifs <;> rfl

/-- Helper: one successful tick increments the wrapping frame counter. -/
theorem execute_ok_frames (s : AppState) (i : Input) :
    (App.execute_ok s i).uniforms.frames = (s.uniforms.frames + 1) % 2 ^ 32 := by
  simp only [App.execute_ok, App.draw_ui]
  split_ifs <;> rfl

/-- Helper: one successful tick stores the sampled clock in uniforms.time. -/
theorem execute_ok_time (s : AppState) (i : Input) :
    (App.execute_ok s i).uniforms.time = i.clock := by
  simp only [App.execute_ok, App.draw_ui]

/-- Helper: after a successful tick the realtime flag equals the checkbox. -/
theorem execute_ok_realtime (s : AppState) (i : Input) :
    (App.execute_ok s i).realtime = i.realtime_box := by
  simp only [App.execute_ok, App.draw_ui]

/-- Helper: the voxel grid is invariant under any sequence of ticks. -/
theorem run_ticks_grid (s : AppState) (inputs : List Input) :
    (App.run_ticks s inputs).grid = s.grid := by
  induction inputs generalizing s with
  | nil => rfl
  | cons i is ih =>
    simp only [App.run_ticks]
    rw [ih, execute_ok_grid]

/-- Helper: uniforms.voxel_amount is invariant under any sequence of ticks. -/
theorem run_ticks_voxel_amount (s : AppState) (inputs : List Input) :
    (App.run_ticks s inputs).uniforms.voxel_amount = s.uniforms.voxel_amount := by
  induction inputs generalizing s with
  | nil => rfl
  | cons i is ih =>
    simp only [App.run_ticks]
    rw [ih, execute_ok_voxel_amount]

/-- Helper: frame-counter value after n identical ticks. -/
theorem run_ticks_replicate_frames (i : Input) (n : Nat) (s : AppState)
    (h : s.uniforms.frames < 2 ^ 32) :
    (App.run_ticks s (List.replicate n i)).uniforms.frames
      = (s.uniforms.frames + n) % 2 ^ 32 := by
  induction n generalizing s with
  | zero =>
    simp only [List.replicate, App.run_ticks]
    omega
  | succ n ih =>
    rw [List.replicate_succ]
    simp only [App.run_ticks]
    have hlt : (App.execute_ok s i).uniforms.frames < 2 ^ 32 := by
      rw [execute_ok_frames]
      exact Nat.mod_lt _ (by norm_num)
    rw [ih (App.execute_ok s i) hlt, execute_ok_frames]
    omega

/-- Helper: a realtime run of ticks issues exactly one dispatch per tick. -/
theorem dispatches_realtime_run (s : AppState) (inputs : List Input)
    (hs : s.realtime = true) (hbox : ∀ i ∈ inputs, i.realtime_box = true) :
    App.total_dispatches s inputs = inputs.length := by
  induction inputs generalizing s with
  | nil => rfl
  | cons i is ih =>
    have h1 : App.dispatches s i = 1 := by simp [App.dispatches, hs]
    have hnext : (App.execute_ok s i).realtime = true := by
      rw [execute_ok_realtime]
      exact hbox i (List.mem_cons_self i is)
    simp only [App.total_dispatches, h1, List.length_cons]
    rw [ih (App.execute_ok s i) hnext fun j hj => hbox j (List.mem_cons_of_mem i hj)]
    omega

/-- Helper: with realtime off and no Render click, no dispatch is issued. -/
theorem dispatches_manual_run (s : AppState) (inputs : List Input)
    (hs : s.realtime = false)
    (hq : ∀ i ∈ inputs, i.realtime_box = false ∧ i.render_clicked = false) :
    App.total_dispatches s inputs = 0 := by
  induction inputs generalizing s with
  | nil => rfl
  | cons i is ih =>
    have hc := hq i (List.mem_cons_self i is)
    have h1 : App.dispatches s i = 0 := by simp [App.dispatches, hs, hc.2]
    have hnext : (App.execute_ok s i).realtime = false := by
      rw [execute_ok_realtime]
      exact hc.1
    simp only [App.total_dispatches, h1]
    rw [ih (App.execute_ok s i) hnext fun j hj => hq j (List.mem_cons_of_mem i hj)]

/-- C3 counterexample: requesting a 100 × 100 resolution does not make the
construction fail — Tracer::new contains no divisibility-by-16 check, so it
returns a tracer for 100 × 100 whenever the shader file is readable. -/
theorem tracer_new_accepts_100 :
    Tracer.new (fun _ => some "shader") uniforms100
      = Except.ok { compute := "shader", texture := (100, 100), resolution := (100, 100) } := rfl

/-- C3 (amended): Tracer::new performs no resolution validation: with the
shader file present it succeeds for a 100 × 100 request, and Tracer::trace
then issues 100 / 16 = 6 workgroups per axis, silently covering only
96 < 100 pixels per axis; the violation is caught neither at construction
nor at dispatch. -/
theorem tracer_new_no_divisibility_check (fs : String → Option String)
    (source : String) (h : fs shader_path = some source) :
    Tracer.new fs uniforms100
      = Except.ok { compute := source, texture := (100, 100), resolution := (100, 100) } ∧
    Tracer.dispatch_size
      { compute := source, texture := (100, 100), resolution := (100, 100) } = (6, 6) ∧
    6 * WORKGROUP_SIZE < 100 := by
  refine ⟨?_, by norm_num [Tracer.dispatch_size, WORKGROUP_SIZE], by decide⟩
  simp [Tracer.new, h, uniforms100, default_uniforms]

/-- Witness for tracer_new_no_divisibility_check with a one-entry file system. -/
theorem tracer_new_no_divisibility_check_witness :
    Tracer.new (fun _ => some "shader") uniforms100
      = Except.ok { compute := "shader", texture := (100, 100), resolution := (100, 100) } ∧
    Tracer.dispatch_size
      { compute := "shader", texture := (100, 100), resolution := (100, 100) } = (6, 6) ∧
    6 * WORKGROUP_SIZE < 100 :=
  tracer_new_no_divisibility_check (fun _ => some "shader") "shader" rfl

/-- C4 counterexample: from the App::new state, enabling realtime on tick one
and failing the trace dispatch on tick two makes App::run return the error:
the loop stops (the third tick never runs) instead of continuing with the
previous texture. -/
theorem trace_failure_stops_loop_cx :
    App.run (App.init "") [input_enable_realtime, input_trace_fail, input0]
      = TickOutcome.err := rfl

/-- C4 (amended): a failing trace dispatch in a realtime tick is not
swallowed: App::execute returns the error through the ? operator and
App::run terminates the main loop with it, so the application exits instead
of continuing to tick (and a Render-button trace failure is unwrapped,
panicking).  The last frame handle is not redisplayed after the failure. -/
theorem trace_failure_propagates (s : AppState) (i : Input) (inputs : List Input)
    (hrt : s.realtime = true) (hf : i.trace_fails = true)
    (hrun : s.should_run = true) :
    App.execute s i = TickOutcome.err ∧
    App.run s (i :: inputs) = TickOutcome.err := by
  have hex : App.execute s i = TickOutcome.err := by
    simp [App.execute, hrt, hf]
  refine ⟨hex, ?_⟩
  simp [App.run, hrun, hex]

/-- Witness for trace_failure_propagates at a concrete realtime state. -/
theorem trace_failure_propagates_witness :
    App.execute { App.init "" with realtime := true } input_trace_fail
      = TickOutcome.err ∧
    App.run { App.init "" with realtime := true } [input_trace_fail]
      = TickOutcome.err :=
  trace_failure_propagates { App.init "" with realtime := true }
    input_trace_fail [] rfl rfl rfl

/-- C5 counterexample: uniforms.frames is a wrapping u32 counter.  Starting
from the App::new state (frames = 0), tick number 2^32 stores frames = 0,
strictly smaller than the value 2^32 - 1 left by the preceding tick, so
frames is not strictly monotonically increasing across every sequence of
ticks. -/
theorem frames_wraparound_cx :
    (App.run_ticks (App.init "") (List.replicate (2 ^ 32) input0)).uniforms.frames
      < (App.run_ticks (App.init "")
          (List.replicate (2 ^ 32 - 1) input0)).uniforms.frames := by
  rw [run_ticks_replicate_frames input0 (2 ^ 32) (App.init "") (by decide),
    run_ticks_replicate_frames input0 (2 ^ 32 - 1) (App.init "") (by decide)]
  decide

/-- C5 (amended): each successful tick advances uniforms.frames by exactly
one modulo 2^32 — hence strictly increases it as long as the counter stays
below 2^32 - 1 — and uniforms.time is non-decreasing whenever the sampled
monotonic clock is at least the previously stored time. -/
theorem frames_time_tick_monotone (s : AppState) (i : Input)
    (hf : s.uniforms.frames + 1 < 2 ^ 32) (ht : s.uniforms.time ≤ i.clock) :
    s.uniforms.frames < (App.execute_ok s i).uniforms.frames ∧
    s.uniforms.time ≤ (App.execute_ok s i).uniforms.time ∧
    (App.execute_ok s i).uniforms.frames = (s.uniforms.frames + 1) % 2 ^ 32 := by
  refine ⟨?_, ?_, execute_ok_frames s i⟩
  · rw [execute_ok_frames, Nat.mod_eq_of_lt hf]
    omega
  · rw [execute_ok_time]
    exact ht

/-- Witness for frames_time_tick_monotone at the App::new state. -/
theorem frames_time_tick_monotone_witness :
    (App.init "").uniforms.frames
        < (App.execute_ok (App.init "") input0).uniforms.frames ∧
    (App.init "").uniforms.time
        ≤ (App.execute_ok (App.init "") input0).uniforms.time ∧
    (App.execute_ok (App.init "") input0).uniforms.frames
        = ((App.init "").uniforms.frames + 1) % 2 ^ 32 :=
  frames_time_tick_monotone (App.init "") input0 (by decide) (by decide)

/-- C6: over any run of ticks that stays in realtime mode, exactly one trace
dispatch is issued per tick; over any run of ticks with realtime off and the
Render button never clicked, no trace dispatch is issued at all. -/
theorem dispatch_count_matches_mode (s : AppState) (inputs : List Input) :
    (s.realtime = true → (∀ i ∈ inputs, i.realtime_box = true) →
      App.total_dispatches s inputs = inputs.length) ∧
    (s.realtime = false →
      (∀ i ∈ inputs, i.realtime_box = false ∧ i.render_clicked = false) →
      App.total_dispatches s inputs = 0) :=
  ⟨fun hs hbox => dispatches_realtime_run s inputs hs hbox,
    fun hs hq => dispatches_manual_run s inputs hs hq⟩

/-- Witness for dispatch_count_matches_mode: one neutral manual-mode tick
from the App::new state issues zero dispatches. -/
theorem dispatch_count_matches_mode_witness :
    App.total_dispatches (App.init "") [input0] = 0 :=
  (dispatch_count_matches_mode (App.init "") [input0]).2 rfl
    (by intro i hi; simp only [List.mem_singleton] at hi; subst hi; exact ⟨rfl, rfl⟩)

/-- C7: in every state reachable from the App::new state by any sequence of
ticks — in particular in the state read by every trace dispatch —
uniforms.voxel_amount equals the length of the voxel grid passed to the
dispatch. -/
theorem voxel_amount_matches_grid (source : String) (inputs : List Input) :
    (App.run_ticks (App.init source) inputs).uniforms.voxel_amount
      = (App.run_ticks (App.init source) inputs).grid.length := by
  rw [run_ticks_voxel_amount, run_ticks_grid]
  rfl

/-- C9: the shader source is read from the relative path shaders/voxel.wgsl;
when the file system has no entry for that path, Tracer::new fails, App::new
propagates the error, and main exits with code 1 (non-zero) with zero trace
dispatches issued before the exit. -/
theorem missing_shader_fatal (fs : String → Option String) (inputs : List Input)
    (h : fs shader_path = none) :
    App.new fs = Except.error () ∧
    main_exit fs inputs = 1 ∧
    App.new_traces fs = 0 := by
  have ht : Tracer.new fs default_uniforms = Except.error () := by
    simp [Tracer.new, h]
  refine ⟨?_, ?_, ?_⟩ <;> simp [App.new, main_exit, App.new_traces, ht]

/-- Witness for missing_shader_fatal with an empty file system. -/
theorem missing_shader_fatal_witness :
    App.new (fun _ => none) = Except.error () ∧
    main_exit (fun _ => none) [] = 1 ∧
    App.new_traces (fun _ => none) = 0 :=
  missing_shader_fatal (fun _ => none) [] rfl

/-- C10: the voxel grid is never mutated after App construction — the UI has
no voxel control — so after any sequence of ticks the grid is still exactly
the five default voxels of App::new, and every trace dispatch receives them. -/
theorem grid_constant (source : String) (inputs : List Input) :
    (App.run_ticks (App.init source) inputs).grid = default_grid ∧
    default_grid.length = 5 := by
  rw [run_ticks_grid]
  exact ⟨rfl, rfl⟩
